import Mathlib

/-!
Shallow embedding of `src/location/src/lib.rs` from the `alp-toolkit`
repository: environment-variable resolution of project directories
(`Env`), the parity classifier (`Env::_parity` / `Env::parity`), the
merged provider (`ProjectDirsOrEnv::new`), and the process-wide
one-time publication generated by the `location!` macro
(`initialize` / `provider` / per-kind and derived accessors).

Paths are modelled as `String` (a `PathBuf` built from a unicode
environment value is exactly that string).  An `OsString` value that is
not valid unicode is modelled by its raw bytes (`List Nat`).  The
process environment is an explicit parameter `Envt`; the external
`directories::ProjectDirs::from(qualifier, organization, application)`
constructor is an abstract parameter `PlatformFn`.
-/

/-- Result of `std::env::var(key)`: the variable is absent
(`VarError::NotPresent`), present with valid unicode data (`Ok`), or
present with non-unicode data (`VarError::NotUnicode`). -/
inductive EnvVal where
  | notPresent : EnvVal
  | valid (s : String) : EnvVal
  | notUnicode (raw : List Nat) : EnvVal
deriving DecidableEq, Repr

/-- The process environment: what `std::env::var` would report for each key. -/
def Envt : Type := String → EnvVal

/-- `true` exactly when the variable is present but not valid unicode,
i.e. when `env::var` would fail with `VarError::NotUnicode`. -/
def EnvVal.isBad : EnvVal → Bool
  | .notUnicode _ => true
  | _ => false

/-- The `Option<PathBuf>` a successful lookup yields: `Some(PathBuf::from(value))`
for a valid value, `None` for an absent variable. -/
def EnvVal.toOpt : EnvVal → Option String
  | .valid s => some s
  | _ => none

/-- `EnvVarNotUnicodeError { name, value }` from the source: the offending
variable's full name and its raw (non-unicode) value. -/
structure EnvVarNotUnicodeError where
  name : String
  value : List Nat
deriving DecidableEq, Repr

/-- `struct Env`: one optional path per directory kind, as read from the
environment. -/
structure Env where
  cache_dir : Option String
  config_dir : Option String
  config_local_dir : Option String
  data_dir : Option String
  data_local_dir : Option String
  preference_dir : Option String
  project_path : Option String
  runtime_dir : Option String
  state_dir : Option String
deriving DecidableEq, Repr

/-- The closure `x` inside `<Env as Provider>::new`: look up
`format!("{env_prefix}{suffix}")`, mapping absence to `Ok(None)`, a valid
value to `Ok(Some(path))`, and non-unicode data to `Err(EnvVarNotUnicodeError)`. -/
def lookupVar (e : Envt) (key : String) : Except EnvVarNotUnicodeError (Option String) :=
  match e key with
  | .notPresent => .ok none
  | .valid s => .ok (some s)
  | .notUnicode raw => .error { name := key, value := raw }

/-- `<Env as Provider>::new(env_prefix)`: the nine lookups in source order
(`_CACHE_DIR`, `_CONFIG_DIR`, `_CONFIG_LOCAL_DIR`, `_DATA_DIR`,
`_DATA_LOCAL_DIR`, `_PREFERENCE_DIR`, `_PROJECT_PATH`, `_RUNTIME_DIR`,
`_STATE_DIR`), each followed by `?` so the first failure aborts the whole
construction. -/
def Env.new (pfx : String) (e : Envt) : Except EnvVarNotUnicodeError Env :=
  match lookupVar e (pfx ++ "_CACHE_DIR") with
  | .error err => .error err
  | .ok cache_dir =>
  match lookupVar e (pfx ++ "_CONFIG_DIR") with
  | .error err => .error err
  | .ok config_dir =>
  match lookupVar e (pfx ++ "_CONFIG_LOCAL_DIR") with
  | .error err => .error err
  | .ok config_local_dir =>
  match lookupVar e (pfx ++ "_DATA_DIR") with
  | .error err => .error err
  | .ok data_dir =>
  match lookupVar e (pfx ++ "_DATA_LOCAL_DIR") with
  | .error err => .error err
  | .ok data_local_dir =>
  match lookupVar e (pfx ++ "_PREFERENCE_DIR") with
  | .error err => .error err
  | .ok preference_dir =>
  match lookupVar e (pfx ++ "_PROJECT_PATH") with
  | .error err => .error err
  | .ok project_path =>
  match lookupVar e (pfx ++ "_RUNTIME_DIR") with
  | .error err => .error err
  | .ok runtime_dir =>
  match lookupVar e (pfx ++ "_STATE_DIR") with
  | .error err => .error err
  | .ok state_dir =>
    .ok { cache_dir, config_dir, config_local_dir, data_dir, data_local_dir,
          preference_dir, project_path, runtime_dir, state_dir }

/-- `struct EnvParity`: the seven mandatory paths, plus the two optional
ones in whatever presence state they had. -/
structure EnvParity where
  cache_dir : String
  config_dir : String
  config_local_dir : String
  data_dir : String
  data_local_dir : String
  preference_dir : String
  project_path : String
  runtime_dir : Option String
  state_dir : Option String
deriving DecidableEq, Repr

/-- `Env::_parity(&mut self)`: the guard re-checks `config_dir` twice, as in
the source, and returns `None` with `self` untouched when any mandatory
field is absent; otherwise each `take()` reads the field and leaves `None`
behind.  The second component is the state of `self` when the function
returns (mutations from `take()` included). -/
def Env.underscoreParity (env : Env) : Option EnvParity × Env :=
  if env.cache_dir.isNone || env.config_dir.isNone || env.config_dir.isNone
      || env.config_local_dir.isNone || env.data_dir.isNone
      || env.data_local_dir.isNone || env.preference_dir.isNone
      || env.project_path.isNone then
    (none, env)
  else
    let env1 := { env with cache_dir := none }
    match env.cache_dir with
    | none => (none, env1)
    | some cache_dir =>
    let env2 := { env1 with config_dir := none }
    match env1.config_dir with
    | none => (none, env2)
    | some config_dir =>
    let env3 := { env2 with config_local_dir := none }
    match env2.config_local_dir with
    | none => (none, env3)
    | some config_local_dir =>
    let env4 := { env3 with data_dir := none }
    match env3.data_dir with
    | none => (none, env4)
    | some data_dir =>
    let env5 := { env4 with data_local_dir := none }
    match env4.data_local_dir with
    | none => (none, env5)
    | some data_local_dir =>
    let env6 := { env5 with preference_dir := none }
    match env5.preference_dir with
    | none => (none, env6)
    | some preference_dir =>
    let env7 := { env6 with project_path := none }
    match env6.project_path with
    | none => (none, env7)
    | some project_path =>
    let runtime_dir := env7.runtime_dir
    let env8 := { env7 with runtime_dir := none }
    let state_dir := env8.state_dir
    let env9 := { env8 with state_dir := none }
    (some { cache_dir, config_dir, config_local_dir, data_dir, data_local_dir,
            preference_dir, project_path, runtime_dir, state_dir }, env9)

/-- `Env::parity(mut self)`: `Ok` on the parity record, otherwise `Err(self)`
with `self` as `_parity` left it. -/
def Env.parity (env : Env) : Except Env EnvParity :=
  match env.underscoreParity with
  | (some p, _) => .ok p
  | (none, envAfter) => .error envAfter

/-- `HomeDirNotFoundError`: `directories` could not establish a home directory. -/
structure HomeDirNotFoundError where
deriving DecidableEq, Repr

/-- `enum InitializeError`: either platform resolution or environment
resolution failed. -/
inductive InitializeError where
  | projectDirs (e : HomeDirNotFoundError)
  | env (e : EnvVarNotUnicodeError)
deriving DecidableEq, Repr

/-- The external `directories::ProjectDirs` value: seven mandatory
directories (always present) and two optional ones. -/
structure ProjectDirs where
  cache_dir : String
  config_dir : String
  config_local_dir : String
  data_dir : String
  data_local_dir : String
  preference_dir : String
  project_path : String
  runtime_dir : Option String
  state_dir : Option String
deriving DecidableEq, Repr

/-- The external constructor `directories::ProjectDirs::from(qualifier,
organization, application)`: `none` models the home-directory-not-found
failure. -/
def PlatformFn : Type := String → String → String → Option ProjectDirs

/-- `<ProjectDirs as Provider>::new(app_name)`:
`Self::from("", "ALinuxPerson", app_name).ok_or(HomeDirNotFoundError)`. -/
def projectDirsNew (pf : PlatformFn) (app_name : String) :
    Except HomeDirNotFoundError ProjectDirs :=
  match pf "" "ALinuxPerson" app_name with
  | some pd => .ok pd
  | none => .error {}

/-- `struct ProjectDirsOrEnv`: the published snapshot — seven mandatory
paths, two optional ones. -/
structure ProjectDirsOrEnv where
  cache_dir : String
  config_dir : String
  config_local_dir : String
  data_dir : String
  data_local_dir : String
  preference_dir : String
  project_path : String
  runtime_dir : Option String
  state_dir : Option String
deriving DecidableEq, Repr

/-- `impl From<EnvParity> for ProjectDirsOrEnv`: field-by-field copy. -/
def ProjectDirsOrEnv.ofEnvParity (value : EnvParity) : ProjectDirsOrEnv :=
  { cache_dir := value.cache_dir
    config_dir := value.config_dir
    config_local_dir := value.config_local_dir
    data_dir := value.data_dir
    data_local_dir := value.data_local_dir
    preference_dir := value.preference_dir
    project_path := value.project_path
    runtime_dir := value.runtime_dir
    state_dir := value.state_dir }

/-- `ProjectDirsOrEnv::new(app_name, env_prefix)`: resolve the environment,
try the parity fast path, otherwise construct the platform provider and
merge with `unwrap_or` on each mandatory field; the two optional fields are
set to `None` on this hybrid path exactly as in the source. -/
def ProjectDirsOrEnv.new (pf : PlatformFn) (app_name : String) (pfx : String)
    (e : Envt) : Except InitializeError ProjectDirsOrEnv :=
  match Env.new pfx e with
  | .error err => .error (.env err)
  | .ok env =>
    match env.parity with
    | .ok p => .ok (ProjectDirsOrEnv.ofEnvParity p)
    | .error env =>
      match projectDirsNew pf app_name with
      | .error err => .error (.projectDirs err)
      | .ok project_dirs =>
        .ok { cache_dir := env.cache_dir.getD project_dirs.cache_dir
              config_dir := env.config_dir.getD project_dirs.config_dir
              config_local_dir := env.config_local_dir.getD project_dirs.config_local_dir
              data_dir := env.data_dir.getD project_dirs.data_dir
              data_local_dir := env.data_local_dir.getD project_dirs.data_local_dir
              preference_dir := env.preference_dir.getD project_dirs.preference_dir
              project_path := env.project_path.getD project_dirs.project_path
              runtime_dir := none
              state_dir := none }

/-- Outcome of a call to the generated `initialize`: `Ok(())`, `Err(e)`, or
a panic with the given message. -/
inductive InitOutcome where
  | success : InitOutcome
  | failure (e : InitializeError) : InitOutcome
  | panicked (msg : String) : InitOutcome
deriving DecidableEq, Repr

/-- `true` exactly on a panic outcome. -/
def InitOutcome.isPanicked : InitOutcome → Bool
  | .panicked _ => true
  | _ => false

/-- The generated `initialize` of the `location!` macro.  `st` is the
contents of the `PROVIDER: OnceLock<ProjectDirsOrEnv>` cell.
`ProjectDirsOrEnv::new(env!("CARGO_PKG_NAME"), $env_prefix)?` is evaluated
first — `cargoPkgName` models the compile-time `env!("CARGO_PKG_NAME")` of
the invoking crate, not a caller-supplied argument — and only then is
`PROVIDER.set` attempted; a failed `set` leaves the cell untouched and
panics. -/
def locationInitialize (pf : PlatformFn) (cargoPkgName : String) (pfx : String)
    (e : Envt) (st : Option ProjectDirsOrEnv) :
    InitOutcome × Option ProjectDirsOrEnv :=
  match ProjectDirsOrEnv.new pf cargoPkgName pfx e with
  | .error err => (.failure err, st)
  | .ok snap =>
    match st with
    | none => (.success, some snap)
    | some _ => (.panicked "project directories/env provider already initialized", st)

/-- Outcome of an accessor call: a value, or a panic with the given message. -/
inductive AccessOutcome (α : Type) where
  | value (a : α) : AccessOutcome α
  | panicked (msg : String) : AccessOutcome α
deriving DecidableEq, Repr

/-- The generated `provider()`: `PROVIDER.get().expect(...)`. -/
def locationProvider (st : Option ProjectDirsOrEnv) : AccessOutcome ProjectDirsOrEnv :=
  match st with
  | some p => .value p
  | none => .panicked "project directories/env provider not yet initialized"

/-- Apply a pure function to the value of an accessor outcome (a panic
propagates). -/
def AccessOutcome.mapVal (f : α → β) : AccessOutcome α → AccessOutcome β
  | .value a => .value (f a)
  | .panicked m => .panicked m

/-- The generated `cache_dir()`: `provider().cache_dir()`. -/
def locationCacheDir (st : Option ProjectDirsOrEnv) : AccessOutcome String :=
  (locationProvider st).mapVal ProjectDirsOrEnv.cache_dir

/-- The generated `config_dir()`. -/
def locationConfigDir (st : Option ProjectDirsOrEnv) : AccessOutcome String :=
  (locationProvider st).mapVal ProjectDirsOrEnv.config_dir

/-- The generated `config_local_dir()`. -/
def locationConfigLocalDir (st : Option ProjectDirsOrEnv) : AccessOutcome String :=
  (locationProvider st).mapVal ProjectDirsOrEnv.config_local_dir

/-- The generated `data_dir()`. -/
def locationDataDir (st : Option ProjectDirsOrEnv) : AccessOutcome String :=
  (locationProvider st).mapVal ProjectDirsOrEnv.data_dir

/-- The generated `data_local_dir()`. -/
def locationDataLocalDir (st : Option ProjectDirsOrEnv) : AccessOutcome String :=
  (locationProvider st).mapVal ProjectDirsOrEnv.data_local_dir

/-- The generated `preference_dir()`. -/
def locationPreferenceDir (st : Option ProjectDirsOrEnv) : AccessOutcome String :=
  (locationProvider st).mapVal ProjectDirsOrEnv.preference_dir

/-- The generated `project_path()`. -/
def locationProjectPath (st : Option ProjectDirsOrEnv) : AccessOutcome String :=
  (locationProvider st).mapVal ProjectDirsOrEnv.project_path

/-- The generated `runtime_dir()` (optional kind). -/
def locationRuntimeDir (st : Option ProjectDirsOrEnv) : AccessOutcome (Option String) :=
  (locationProvider st).mapVal ProjectDirsOrEnv.runtime_dir

/-- The generated `state_dir()` (optional kind). -/
def locationStateDir (st : Option ProjectDirsOrEnv) : AccessOutcome (Option String) :=
  (locationProvider st).mapVal ProjectDirsOrEnv.state_dir

/-- One call to a generated derived accessor.  `cache` is the contents of
the accessor's private `VALUE: OnceLock<PathBuf>`; `get_or_init` returns
the cached value if present, otherwise runs `f(provider())`, caches and
returns it.  The last component counts how many times the derivation `f`
was evaluated during this call (instrumentation for the memoization
property; the source performs the computation exactly when this count
is 1). -/
def derivedAccessorCall (f : ProjectDirsOrEnv → String) (st : Option ProjectDirsOrEnv)
    (cache : Option String) : AccessOutcome String × Option String × Nat :=
  match cache with
  | some v => (.value v, some v, 0)
  | none =>
    match locationProvider st with
    | .panicked m => (.panicked m, none, 0)
    | .value p => (.value (f p), some (f p), 1)

/-- `n` successive calls to the same derived accessor, threading its cache
cell; returns the list of results, the final cache state, and the total
number of evaluations of the derivation `f`. -/
def derivedCalls (f : ProjectDirsOrEnv → String) (st : Option ProjectDirsOrEnv)
    (cache : Option String) : Nat → List (AccessOutcome String) × Option String × Nat
  | 0 => ([], cache, 0)
  | n + 1 =>
    let (r, cache1, k1) := derivedAccessorCall f st cache
    let (rs, cache2, k2) := derivedCalls f st cache1 n
    (r :: rs, cache2, k1 + k2)

/-- All seven mandatory fields of an `Env` are present: the classification
the parity guard implements (the spec's *env-complete*). -/
def mandatoryAllSome (env : Env) : Bool :=
  env.cache_dir.isSome && env.config_dir.isSome && env.config_local_dir.isSome
    && env.data_dir.isSome && env.data_local_dir.isSome
    && env.preference_dir.isSome && env.project_path.isSome

/-- `true` exactly when `parity` classifies the snapshot as env-complete. -/
def parityOk (env : Env) : Bool :=
  match env.parity with
  | .ok _ => true
  | .error _ => false

/-- The nine variable-name suffixes in the exact order `Env::new` looks
them up. -/
def suffixAt : Fin 9 → String
  | ⟨0, _⟩ => "_CACHE_DIR"
  | ⟨1, _⟩ => "_CONFIG_DIR"
  | ⟨2, _⟩ => "_CONFIG_LOCAL_DIR"
  | ⟨3, _⟩ => "_DATA_DIR"
  | ⟨4, _⟩ => "_DATA_LOCAL_DIR"
  | ⟨5, _⟩ => "_PREFERENCE_DIR"
  | ⟨6, _⟩ => "_PROJECT_PATH"
  | ⟨7, _⟩ => "_RUNTIME_DIR"
  | ⟨8, _⟩ => "_STATE_DIR"

lemma lookupVar_ok_of_not_bad (e : Envt) (k : String) (h : (e k).isBad = false) :
    lookupVar e k = .ok (e k).toOpt := by
  cases hek : e k <;> simp_all [lookupVar, EnvVal.isBad, EnvVal.toOpt]

lemma lookupVar_ok_iff (e : Envt) (k : String) (v : Option String) :
    lookupVar e k = .ok v ↔ ((e k).isBad = false ∧ (e k).toOpt = v) := by
  cases hek : e k <;> simp [lookupVar, hek, EnvVal.isBad, EnvVal.toOpt]

/-- When none of the nine variables is non-unicode, `Env::new` succeeds and
each field is the variable's value (or `None` when absent). -/
lemma env_new_eq_ok (pfx : String) (e : Envt)
    (h1 : (e (pfx ++ "_CACHE_DIR")).isBad = false)
    (h2 : (e (pfx ++ "_CONFIG_DIR")).isBad = false)
    (h3 : (e (pfx ++ "_CONFIG_LOCAL_DIR")).isBad = false)
    (h4 : (e (pfx ++ "_DATA_DIR")).isBad = false)
    (h5 : (e (pfx ++ "_DATA_LOCAL_DIR")).isBad = false)
    (h6 : (e (pfx ++ "_PREFERENCE_DIR")).isBad = false)
    (h7 : (e (pfx ++ "_PROJECT_PATH")).isBad = false)
    (h8 : (e (pfx ++ "_RUNTIME_DIR")).isBad = false)
    (h9 : (e (pfx ++ "_STATE_DIR")).isBad = false) :
    Env.new pfx e = .ok
      { cache_dir := (e (pfx ++ "_CACHE_DIR")).toOpt
        config_dir := (e (pfx ++ "_CONFIG_DIR")).toOpt
        config_local_dir := (e (pfx ++ "_CONFIG_LOCAL_DIR")).toOpt
        data_dir := (e (pfx ++ "_DATA_DIR")).toOpt
        data_local_dir := (e (pfx ++ "_DATA_LOCAL_DIR")).toOpt
        preference_dir := (e (pfx ++ "_PREFERENCE_DIR")).toOpt
        project_path := (e (pfx ++ "_PROJECT_PATH")).toOpt
        runtime_dir := (e (pfx ++ "_RUNTIME_DIR")).toOpt
        state_dir := (e (pfx ++ "_STATE_DIR")).toOpt } := by
  simp only [Env.new, lookupVar_ok_of_not_bad _ _ h1, lookupVar_ok_of_not_bad _ _ h2,
    lookupVar_ok_of_not_bad _ _ h3, lookupVar_ok_of_not_bad _ _ h4,
    lookupVar_ok_of_not_bad _ _ h5, lookupVar_ok_of_not_bad _ _ h6,
    lookupVar_ok_of_not_bad _ _ h7, lookupVar_ok_of_not_bad _ _ h8,
    lookupVar_ok_of_not_bad _ _ h9]

/-- When `Env::new` succeeds, every looked-up variable was unicode-valid
and each field carries the variable's value verbatim. -/
lemma env_new_ok_inv (pfx : String) (e : Envt) (env : Env)
    (h : Env.new pfx e = .ok env) :
    (e (pfx ++ "_CACHE_DIR")).isBad = false
      ∧ (e (pfx ++ "_CONFIG_DIR")).isBad = false
      ∧ (e (pfx ++ "_CONFIG_LOCAL_DIR")).isBad = false
      ∧ (e (pfx ++ "_DATA_DIR")).isBad = false
      ∧ (e (pfx ++ "_DATA_LOCAL_DIR")).isBad = false
      ∧ (e (pfx ++ "_PREFERENCE_DIR")).isBad = false
      ∧ (e (pfx ++ "_PROJECT_PATH")).isBad = false
      ∧ (e (pfx ++ "_RUNTIME_DIR")).isBad = false
      ∧ (e (pfx ++ "_STATE_DIR")).isBad = false
      ∧ env = { cache_dir := (e (pfx ++ "_CACHE_DIR")).toOpt
                config_dir := (e (pfx ++ "_CONFIG_DIR")).toOpt
                config_local_dir := (e (pfx ++ "_CONFIG_LOCAL_DIR")).toOpt
                data_dir := (e (pfx ++ "_DATA_DIR")).toOpt
                data_local_dir := (e (pfx ++ "_DATA_LOCAL_DIR")).toOpt
                preference_dir := (e (pfx ++ "_PREFERENCE_DIR")).toOpt
                project_path := (e (pfx ++ "_PROJECT_PATH")).toOpt
                runtime_dir := (e (pfx ++ "_RUNTIME_DIR")).toOpt
                state_dir := (e (pfx ++ "_STATE_DIR")).toOpt } := by
  unfold Env.new at h
  repeat' split at h
  all_goals try exact Except.noConfusion h
  injection h with h
  subst h
  simp_all [lookupVar_ok_iff]

/-- If some mandatory field is absent, `parity` fails and returns the
snapshot with every field untouched. -/
lemma parity_of_incomplete (env : Env) (h : mandatoryAllSome env = false) :
    env.parity = .error env := by
  obtain ⟨c, g, gl, d, dl, p, pp, r, s⟩ := env
  simp only [mandatoryAllSome] at h
  cases c <;> cases g <;> cases gl <;> cases d <;> cases dl <;> cases p <;> cases pp <;>
    simp_all [Env.parity, Env.underscoreParity]

/-- If all seven mandatory fields are present, `parity` succeeds and carries
all nine fields over, the optional ones verbatim. -/
lemma parity_of_complete (env : Env) (c g gl d dl p pp : String)
    (hc : env.cache_dir = some c) (hg : env.config_dir = some g)
    (hgl : env.config_local_dir = some gl) (hd : env.data_dir = some d)
    (hdl : env.data_local_dir = some dl) (hp : env.preference_dir = some p)
    (hpp : env.project_path = some pp) :
    env.parity = .ok { cache_dir := c, config_dir := g, config_local_dir := gl,
                       data_dir := d, data_local_dir := dl, preference_dir := p,
                       project_path := pp, runtime_dir := env.runtime_dir,
                       state_dir := env.state_dir } := by
  obtain ⟨c0, g0, gl0, d0, dl0, p0, pp0, r0, s0⟩ := env
  simp only at hc hg hgl hd hdl hp hpp
  subst hc hg hgl hd hdl hp hpp
  rfl

lemma parityOk_eq_mandatoryAllSome (env : Env) : parityOk env = mandatoryAllSome env := by
  cases hm : mandatoryAllSome env with
  | false => simp [parityOk, parity_of_incomplete env hm]
  | true =>
    simp only [mandatoryAllSome, Bool.and_eq_true, Option.isSome_iff_exists] at hm
    obtain ⟨⟨⟨⟨⟨⟨⟨c, hc⟩, g, hg⟩, gl, hgl⟩, d, hd⟩, dl, hdl⟩, p, hp⟩, pp, hpp⟩ := hm
    simp [parityOk, parity_of_complete env c g gl d dl p pp hc hg hgl hd hdl hp hpp]

/-- If the `i`-th variable in lookup order is set to non-unicode data and no
earlier one is, `Env::new` fails with exactly that variable's name and raw
value. -/
lemma env_new_first_bad (pfx : String) (e : Envt) (i : Fin 9) (raw : List Nat)
    (hbad : e (pfx ++ suffixAt i) = .notUnicode raw)
    (hfirst : ∀ j : Fin 9, j < i → (e (pfx ++ suffixAt j)).isBad = false) :
    Env.new pfx e = .error { name := pfx ++ suffixAt i, value := raw } := by
  fin_cases i
  · simp only [suffixAt] at hbad ⊢
    have hb : lookupVar e (pfx ++ "_CACHE_DIR")
        = .error { name := pfx ++ "_CACHE_DIR", value := raw } := by
      simp only [lookupVar, hbad]
    simp only [Env.new, hb]
  · have h0 := lookupVar_ok_of_not_bad e _ (hfirst 0 (by decide))
    simp only [suffixAt] at h0 hbad ⊢
    have hb : lookupVar e (pfx ++ "_CONFIG_DIR")
        = .error { name := pfx ++ "_CONFIG_DIR", value := raw } := by
      simp only [lookupVar, hbad]
    simp only [Env.new, h0, hb]
  · have h0 := lookupVar_ok_of_not_bad e _ (hfirst 0 (by decide))
    have h1 := lookupVar_ok_of_not_bad e _ (hfirst 1 (by decide))
    simp only [suffixAt] at h0 h1 hbad ⊢
    have hb : lookupVar e (pfx ++ "_CONFIG_LOCAL_DIR")
        = .error { name := pfx ++ "_CONFIG_LOCAL_DIR", value := raw } := by
      simp only [lookupVar, hbad]
    simp only [Env.new, h0, h1, hb]
  · have h0 := lookupVar_ok_of_not_bad e _ (hfirst 0 (by decide))
    have h1 := lookupVar_ok_of_not_bad e _ (hfirst 1 (by decide))
    have h2 := lookupVar_ok_of_not_bad e _ (hfirst 2 (by decide))
    simp only [suffixAt] at h0 h1 h2 hbad ⊢
    have hb : lookupVar e (pfx ++ "_DATA_DIR")
        = .error { name := pfx ++ "_DATA_DIR", value := raw } := by
      simp only [lookupVar, hbad]
    simp only [Env.new, h0, h1, h2, hb]
  · have h0 := lookupVar_ok_of_not_bad e _ (hfirst 0 (by decide))
    have h1 := lookupVar_ok_of_not_bad e _ (hfirst 1 (by decide))
    have h2 := lookupVar_ok_of_not_bad e _ (hfirst 2 (by decide))
    have h3 := lookupVar_ok_of_not_bad e _ (hfirst 3 (by decide))
    simp only [suffixAt] at h0 h1 h2 h3 hbad ⊢
    have hb : lookupVar e (pfx ++ "_DATA_LOCAL_DIR")
        = .error { name := pfx ++ "_DATA_LOCAL_DIR", value := raw } := by
      simp only [lookupVar, hbad]
    simp only [Env.new, h0, h1, h2, h3, hb]
  · have h0 := lookupVar_ok_of_not_bad e _ (hfirst 0 (by decide))
    have h1 := lookupVar_ok_of_not_bad e _ (hfirst 1 (by decide))
    have h2 := lookupVar_ok_of_not_bad e _ (hfirst 2 (by decide))
    have h3 := lookupVar_ok_of_not_bad e _ (hfirst 3 (by decide))
    have h4 := lookupVar_ok_of_not_bad e _ (hfirst 4 (by decide))
    simp only [suffixAt] at h0 h1 h2 h3 h4 hbad ⊢
    have hb : lookupVar e (pfx ++ "_PREFERENCE_DIR")
        = .error { name := pfx ++ "_PREFERENCE_DIR", value := raw } := by
      simp only [lookupVar, hbad]
    simp only [Env.new, h0, h1, h2, h3, h4, hb]
  · have h0 := lookupVar_ok_of_not_bad e _ (hfirst 0 (by decide))
    have h1 := lookupVar_ok_of_not_bad e _ (hfirst 1 (by decide))
    have h2 := lookupVar_ok_of_not_bad e _ (hfirst 2 (by decide))
    have h3 := lookupVar_ok_of_not_bad e _ (hfirst 3 (by decide))
    have h4 := lookupVar_ok_of_not_bad e _ (hfirst 4 (by decide))
    have h5 := lookupVar_ok_of_not_bad e _ (hfirst 5 (by decide))
    simp only [suffixAt] at h0 h1 h2 h3 h4 h5 hbad ⊢
    have hb : lookupVar e (pfx ++ "_PROJECT_PATH")
        = .error { name := pfx ++ "_PROJECT_PATH", value := raw } := by
      simp only [lookupVar, hbad]
    simp only [Env.new, h0, h1, h2, h3, h4, h5, hb]
  · have h0 := lookupVar_ok_of_not_bad e _ (hfirst 0 (by decide))
    have h1 := lookupVar_ok_of_not_bad e _ (hfirst 1 (by decide))
    have h2 := lookupVar_ok_of_not_bad e _ (hfirst 2 (by decide))
    have h3 := lookupVar_ok_of_not_bad e _ (hfirst 3 (by decide))
    have h4 := lookupVar_ok_of_not_bad e _ (hfirst 4 (by decide))
    have h5 := lookupVar_ok_of_not_bad e _ (hfirst 5 (by decide))
    have h6 := lookupVar_ok_of_not_bad e _ (hfirst 6 (by decide))
    simp only [suffixAt] at h0 h1 h2 h3 h4 h5 h6 hbad ⊢
    have hb : lookupVar e (pfx ++ "_RUNTIME_DIR")
        = .error { name := pfx ++ "_RUNTIME_DIR", value := raw } := by
      simp only [lookupVar, hbad]
    simp only [Env.new, h0, h1, h2, h3, h4, h5, h6, hb]
  · have h0 := lookupVar_ok_of_not_bad e _ (hfirst 0 (by decide))
    have h1 := lookupVar_ok_of_not_bad e _ (hfirst 1 (by decide))
    have h2 := lookupVar_ok_of_not_bad e _ (hfirst 2 (by decide))
    have h3 := lookupVar_ok_of_not_bad e _ (hfirst 3 (by decide))
    have h4 := lookupVar_ok_of_not_bad e _ (hfirst 4 (by decide))
    have h5 := lookupVar_ok_of_not_bad e _ (hfirst 5 (by decide))
    have h6 := lookupVar_ok_of_not_bad e _ (hfirst 6 (by decide))
    have h7 := lookupVar_ok_of_not_bad e _ (hfirst 7 (by decide))
    simp only [suffixAt] at h0 h1 h2 h3 h4 h5 h6 h7 hbad ⊢
    have hb : lookupVar e (pfx ++ "_STATE_DIR")
        = .error { name := pfx ++ "_STATE_DIR", value := raw } := by
      simp only [lookupVar, hbad]
    simp only [Env.new, h0, h1, h2, h3, h4, h5, h6, h7, hb]
/-- C3: the parity classifier deems a snapshot env-complete exactly when
all 7 mandatory kinds are present; the two optional kinds never change the
classification; and a snapshot that is not env-complete is handed back to
the caller with every field unchanged. -/
theorem c3_parity_classifier (env : Env) :
    (parityOk env = mandatoryAllSome env)
    ∧ (∀ rt st : Option String,
        parityOk { env with runtime_dir := rt, state_dir := st } = parityOk env)
    ∧ (mandatoryAllSome env = false → env.parity = .error env) := by
  refine ⟨parityOk_eq_mandatoryAllSome env, ?_, fun hm => parity_of_incomplete env hm⟩
  intro rt st
  rw [parityOk_eq_mandatoryAllSome, parityOk_eq_mandatoryAllSome]
  simp [mandatoryAllSome]

/-- Witness for C3 at a concrete incomplete snapshot (cache absent,
optional runtime present). -/
theorem c3_parity_classifier_witness :
    (parityOk { cache_dir := none, config_dir := some "/g", config_local_dir := some "/gl",
                data_dir := some "/d", data_local_dir := some "/dl",
                preference_dir := some "/p", project_path := some "/pp",
                runtime_dir := some "/r", state_dir := none }
      = mandatoryAllSome { cache_dir := none, config_dir := some "/g",
                           config_local_dir := some "/gl", data_dir := some "/d",
                           data_local_dir := some "/dl", preference_dir := some "/p",
                           project_path := some "/pp", runtime_dir := some "/r",
                           state_dir := none })
    ∧ Env.parity { cache_dir := none, config_dir := some "/g", config_local_dir := some "/gl",
                   data_dir := some "/d", data_local_dir := some "/dl",
                   preference_dir := some "/p", project_path := some "/pp",
                   runtime_dir := some "/r", state_dir := none }
        = .error { cache_dir := none, config_dir := some "/g", config_local_dir := some "/gl",
                   data_dir := some "/d", data_local_dir := some "/dl",
                   preference_dir := some "/p", project_path := some "/pp",
                   runtime_dir := some "/r", state_dir := none } :=
  ⟨(c3_parity_classifier _).1, (c3_parity_classifier _).2.2 (by rfl)⟩

/-- C5: if any set variable among the nine is not valid unicode, `Env::new`
fails with an error naming the first such variable in lookup order and
carrying its raw value; nothing after the first failure influences the
outcome (any environment agreeing on the variables up to and including the
failing one yields the identical result). -/
theorem c5_encoding_fail_fast (pfx : String) (e : Envt) (i : Fin 9) (raw : List Nat)
    (hbad : e (pfx ++ suffixAt i) = .notUnicode raw)
    (hfirst : ∀ j : Fin 9, j < i → (e (pfx ++ suffixAt j)).isBad = false) :
    Env.new pfx e = .error { name := pfx ++ suffixAt i, value := raw }
    ∧ ∀ e2 : Envt,
        (∀ j : Fin 9, j ≤ i → e2 (pfx ++ suffixAt j) = e (pfx ++ suffixAt j)) →
        Env.new pfx e2 = Env.new pfx e := by
  have he := env_new_first_bad pfx e i raw hbad hfirst
  refine ⟨he, fun e2 he2 => ?_⟩
  have hbad2 : e2 (pfx ++ suffixAt i) = .notUnicode raw := by
    rw [he2 i (le_refl i)]; exact hbad
  have hfirst2 : ∀ j : Fin 9, j < i → (e2 (pfx ++ suffixAt j)).isBad = false := by
    intro j hj
    rw [he2 j (le_of_lt hj)]
    exact hfirst j hj
  rw [env_new_first_bad pfx e2 i raw hbad2 hfirst2, he]

/-- C2: when all seven mandatory variables are set to valid paths (and the
two optional ones are absent or valid), the resolved snapshot carries all
nine environment fields over verbatim, and, since the result is the same
for every platform function, the platform resolver is never invoked. -/
theorem c2_env_complete_verbatim (pf : PlatformFn) (app pfx : String) (e : Envt)
    (c g gl d dl p pp : String)
    (h1 : e (pfx ++ "_CACHE_DIR") = .valid c)
    (h2 : e (pfx ++ "_CONFIG_DIR") = .valid g)
    (h3 : e (pfx ++ "_CONFIG_LOCAL_DIR") = .valid gl)
    (h4 : e (pfx ++ "_DATA_DIR") = .valid d)
    (h5 : e (pfx ++ "_DATA_LOCAL_DIR") = .valid dl)
    (h6 : e (pfx ++ "_PREFERENCE_DIR") = .valid p)
    (h7 : e (pfx ++ "_PROJECT_PATH") = .valid pp)
    (h8 : (e (pfx ++ "_RUNTIME_DIR")).isBad = false)
    (h9 : (e (pfx ++ "_STATE_DIR")).isBad = false) :
    ProjectDirsOrEnv.new pf app pfx e = .ok
      { cache_dir := c, config_dir := g, config_local_dir := gl, data_dir := d,
        data_local_dir := dl, preference_dir := p, project_path := pp,
        runtime_dir := (e (pfx ++ "_RUNTIME_DIR")).toOpt,
        state_dir := (e (pfx ++ "_STATE_DIR")).toOpt } := by
  have hval : ∀ s : String, (EnvVal.valid s).toOpt = some s := fun s => rfl
  have hE := env_new_eq_ok pfx e (by rw [h1]; rfl) (by rw [h2]; rfl) (by rw [h3]; rfl)
      (by rw [h4]; rfl) (by rw [h5]; rfl) (by rw [h6]; rfl) (by rw [h7]; rfl) h8 h9
  rw [h1, h2, h3, h4, h5, h6, h7] at hE
  simp only [hval] at hE
  have hP := parity_of_complete
      { cache_dir := some c, config_dir := some g, config_local_dir := some gl,
        data_dir := some d, data_local_dir := some dl, preference_dir := some p,
        project_path := some pp, runtime_dir := (e (pfx ++ "_RUNTIME_DIR")).toOpt,
        state_dir := (e (pfx ++ "_STATE_DIR")).toOpt }
      c g gl d dl p pp rfl rfl rfl rfl rfl rfl rfl
  simp only [ProjectDirsOrEnv.new, hE, hP]
  rfl

/-- Witness for C2: the spec's `ACME` example — all seven mandatory
variables set, runtime and state unset, a platform function that would
fail if it were ever consulted. -/
theorem c2_env_complete_verbatim_witness :
    ProjectDirsOrEnv.new (fun _ _ _ => none) "myapp" "ACME"
      (fun k =>
        if k = "ACME_CACHE_DIR" then .valid "/tmp/c"
        else if k = "ACME_CONFIG_DIR" then .valid "/tmp/cfg"
        else if k = "ACME_CONFIG_LOCAL_DIR" then .valid "/tmp/cfgl"
        else if k = "ACME_DATA_DIR" then .valid "/tmp/d"
        else if k = "ACME_DATA_LOCAL_DIR" then .valid "/tmp/dl"
        else if k = "ACME_PREFERENCE_DIR" then .valid "/tmp/p"
        else if k = "ACME_PROJECT_PATH" then .valid "/tmp/proj"
        else .notPresent)
      = .ok { cache_dir := "/tmp/c", config_dir := "/tmp/cfg",
              config_local_dir := "/tmp/cfgl", data_dir := "/tmp/d",
              data_local_dir := "/tmp/dl", preference_dir := "/tmp/p",
              project_path := "/tmp/proj", runtime_dir := none, state_dir := none } :=
  c2_env_complete_verbatim (fun _ _ _ => none) "myapp" "ACME" _
    "/tmp/c" "/tmp/cfg" "/tmp/cfgl" "/tmp/d" "/tmp/dl" "/tmp/p" "/tmp/proj"
    (by decide) (by decide) (by decide) (by decide) (by decide) (by decide)
    (by decide) (by decide) (by decide)

/-- C4: when the snapshot is not env-complete, every mandatory kind of the
published snapshot is the environment value if present, else exactly the
platform resolver's value for that kind. -/
theorem c4_hybrid_mandatory_merge (pf : PlatformFn) (app pfx : String) (e : Envt)
    (env : Env) (pd : ProjectDirs)
    (hEnv : Env.new pfx e = .ok env)
    (hInc : mandatoryAllSome env = false)
    (hPd : pf "" "ALinuxPerson" app = some pd) :
    ProjectDirsOrEnv.new pf app pfx e = .ok
      { cache_dir := env.cache_dir.getD pd.cache_dir,
        config_dir := env.config_dir.getD pd.config_dir,
        config_local_dir := env.config_local_dir.getD pd.config_local_dir,
        data_dir := env.data_dir.getD pd.data_dir,
        data_local_dir := env.data_local_dir.getD pd.data_local_dir,
        preference_dir := env.preference_dir.getD pd.preference_dir,
        project_path := env.project_path.getD pd.project_path,
        runtime_dir := none, state_dir := none } := by
  simp only [ProjectDirsOrEnv.new, hEnv, parity_of_incomplete env hInc,
    projectDirsNew, hPd]

/-- Witness for C4: zero relevant environment variables set — every
mandatory kind equals the platform default. -/
theorem c4_hybrid_mandatory_merge_witness :
    ProjectDirsOrEnv.new
      (fun _ _ _ => some { cache_dir := "/home/u/.cache/myapp",
                           config_dir := "/home/u/.config/myapp",
                           config_local_dir := "/home/u/.config/myapp",
                           data_dir := "/home/u/.local/share/myapp",
                           data_local_dir := "/home/u/.local/share/myapp",
                           preference_dir := "/home/u/.config/myapp",
                           project_path := "/home/u/myapp",
                           runtime_dir := some "/run/user/1000",
                           state_dir := some "/home/u/.local/state/myapp" })
      "myapp" "ACME" (fun _ => .notPresent)
      = .ok { cache_dir := "/home/u/.cache/myapp",
              config_dir := "/home/u/.config/myapp",
              config_local_dir := "/home/u/.config/myapp",
              data_dir := "/home/u/.local/share/myapp",
              data_local_dir := "/home/u/.local/share/myapp",
              preference_dir := "/home/u/.config/myapp",
              project_path := "/home/u/myapp",
              runtime_dir := none, state_dir := none } :=
  (c4_hybrid_mandatory_merge _ "myapp" "ACME" (fun _ => .notPresent)
    { cache_dir := none, config_dir := none, config_local_dir := none,
      data_dir := none, data_local_dir := none, preference_dir := none,
      project_path := none, runtime_dir := none, state_dir := none }
    { cache_dir := "/home/u/.cache/myapp",
      config_dir := "/home/u/.config/myapp",
      config_local_dir := "/home/u/.config/myapp",
      data_dir := "/home/u/.local/share/myapp",
      data_local_dir := "/home/u/.local/share/myapp",
      preference_dir := "/home/u/.config/myapp",
      project_path := "/home/u/myapp",
      runtime_dir := some "/run/user/1000",
      state_dir := some "/home/u/.local/state/myapp" }
    (by rfl) (by rfl) (by rfl)).trans rfl

/-- Counterexample to C1: the environment is not env-complete but supplies
`ACME_RUNTIME_DIR=/r`, and the platform resolver supplies a runtime
directory `/pr`; the claim predicts the published runtime kind to be
`/r`, yet the snapshot's runtime kind is absent. -/
theorem c1_counterexample :
    ProjectDirsOrEnv.new
      (fun _ _ _ => some { cache_dir := "/pc", config_dir := "/pg",
                           config_local_dir := "/pgl", data_dir := "/pd",
                           data_local_dir := "/pdl", preference_dir := "/ppf",
                           project_path := "/ppp", runtime_dir := some "/pr",
                           state_dir := some "/ps" })
      "myapp" "ACME"
      (fun k => if k = "ACME_RUNTIME_DIR" then .valid "/r" else .notPresent)
      = .ok { cache_dir := "/pc", config_dir := "/pg", config_local_dir := "/pgl",
              data_dir := "/pd", data_local_dir := "/pdl", preference_dir := "/ppf",
              project_path := "/ppp", runtime_dir := none, state_dir := none }
    ∧ (none : Option String) ≠ some "/r" := by
  exact ⟨by rfl, by decide⟩

/-- C1 amended: for every environment snapshot that is not env-complete,
each optional kind (runtime, state) in the published snapshot is absent —
the hybrid path discards both the environment's and the platform's
optional values. -/
theorem c1_amended_hybrid_optionals_absent (pf : PlatformFn) (app pfx : String)
    (e : Envt) (env : Env) (snap : ProjectDirsOrEnv)
    (hEnv : Env.new pfx e = .ok env)
    (hInc : mandatoryAllSome env = false)
    (h : ProjectDirsOrEnv.new pf app pfx e = .ok snap) :
    snap.runtime_dir = none ∧ snap.state_dir = none := by
  rw [ProjectDirsOrEnv.new] at h
  rw [hEnv] at h
  simp only [parity_of_incomplete env hInc] at h
  cases hPd : projectDirsNew pf app with
  | error err => rw [hPd] at h; exact absurd h (by simp)
  | ok pd =>
    rw [hPd] at h
    simp only [Except.ok.injEq] at h
    subst h
    exact ⟨rfl, rfl⟩

/-- Witness for C1 amended, at the counterexample's inputs. -/
theorem c1_amended_hybrid_optionals_absent_witness :
    ({ cache_dir := "/pc", config_dir := "/pg", config_local_dir := "/pgl",
       data_dir := "/pd", data_local_dir := "/pdl", preference_dir := "/ppf",
       project_path := "/ppp", runtime_dir := none,
       state_dir := none } : ProjectDirsOrEnv).runtime_dir = none
    ∧ ({ cache_dir := "/pc", config_dir := "/pg", config_local_dir := "/pgl",
         data_dir := "/pd", data_local_dir := "/pdl", preference_dir := "/ppf",
         project_path := "/ppp", runtime_dir := none,
         state_dir := none } : ProjectDirsOrEnv).state_dir = none :=
  c1_amended_hybrid_optionals_absent
    (fun _ _ _ => some { cache_dir := "/pc", config_dir := "/pg",
                         config_local_dir := "/pgl", data_dir := "/pd",
                         data_local_dir := "/pdl", preference_dir := "/ppf",
                         project_path := "/ppp", runtime_dir := some "/pr",
                         state_dir := some "/ps" })
    "myapp" "ACME"
    (fun k => if k = "ACME_RUNTIME_DIR" then .valid "/r" else .notPresent)
    { cache_dir := none, config_dir := none, config_local_dir := none,
      data_dir := none, data_local_dir := none, preference_dir := none,
      project_path := none, runtime_dir := some "/r", state_dir := none }
    _ (by rfl) (by rfl) (by rfl)

lemma toOpt_some_valid (x : EnvVal) (v : String) (h : x.toOpt = some v) :
    x = .valid v := by
  cases x <;> simp_all [EnvVal.toOpt]

/-- Counterexample to C6: with all seven mandatory variables set and the
runtime variable set to the empty string, initialization succeeds and
publishes the empty string as the runtime kind — the code performs no
emptiness validation. -/
theorem c6_counterexample :
    ProjectDirsOrEnv.new (fun _ _ _ => none) "myapp" "P"
      (fun k =>
        if k = "P_CACHE_DIR" then .valid "/c"
        else if k = "P_CONFIG_DIR" then .valid "/g"
        else if k = "P_CONFIG_LOCAL_DIR" then .valid "/gl"
        else if k = "P_DATA_DIR" then .valid "/d"
        else if k = "P_DATA_LOCAL_DIR" then .valid "/dl"
        else if k = "P_PREFERENCE_DIR" then .valid "/p"
        else if k = "P_PROJECT_PATH" then .valid "/pp"
        else if k = "P_RUNTIME_DIR" then .valid ""
        else .notPresent)
      = .ok { cache_dir := "/c", config_dir := "/g", config_local_dir := "/gl",
              data_dir := "/d", data_local_dir := "/dl", preference_dir := "/p",
              project_path := "/pp", runtime_dir := some "", state_dir := none }
    ∧ String.isEmpty "" = true := by
  exact ⟨by rfl, by rfl⟩

/-- C6 amended: every published snapshot structurally carries all seven
mandatory kinds; each optional kind is either absent or exactly the string
the environment supplied for it, with no validation (so an empty-string
variable yields an empty, not absent, value). -/
theorem c6_amended_optional_verbatim (pf : PlatformFn) (app pfx : String)
    (e : Envt) (snap : ProjectDirsOrEnv)
    (h : ProjectDirsOrEnv.new pf app pfx e = .ok snap) :
    (∀ v, snap.runtime_dir = some v → e (pfx ++ "_RUNTIME_DIR") = .valid v)
    ∧ (∀ v, snap.state_dir = some v → e (pfx ++ "_STATE_DIR") = .valid v) := by
  rw [ProjectDirsOrEnv.new] at h
  cases hE : Env.new pfx e with
  | error err => rw [hE] at h; exact absurd h (by simp)
  | ok env =>
    rw [hE] at h
    obtain ⟨b1, b2, b3, b4, b5, b6, b7, b8, b9, henv⟩ := env_new_ok_inv pfx e env hE
    cases hm : mandatoryAllSome env with
    | false =>
      simp only [parity_of_incomplete env hm] at h
      cases hPd : projectDirsNew pf app with
      | error err => rw [hPd] at h; exact absurd h (by simp)
      | ok pd =>
        rw [hPd] at h
        simp only [Except.ok.injEq] at h
        subst h
        exact ⟨fun v hv => by simp at hv, fun v hv => by simp at hv⟩
    | true =>
      simp only [mandatoryAllSome, Bool.and_eq_true, Option.isSome_iff_exists] at hm
      obtain ⟨⟨⟨⟨⟨⟨⟨c, hc⟩, g, hg⟩, gl, hgl⟩, d, hd⟩, dl, hdl⟩, p, hp⟩, pp, hpp⟩ := hm
      simp only [parity_of_complete env c g gl d dl p pp hc hg hgl hd hdl hp hpp] at h
      simp only [ProjectDirsOrEnv.ofEnvParity, Except.ok.injEq] at h
      subst h
      constructor
      · intro v hv
        simp only at hv
        rw [henv] at hv
        simp only at hv
        exact toOpt_some_valid _ _ hv
      · intro v hv
        simp only at hv
        rw [henv] at hv
        simp only at hv
        exact toOpt_some_valid _ _ hv

/-- Witness for C6 amended: an env-complete environment with
`P_RUNTIME_DIR=/r`; the published runtime value traces back to that exact
variable. -/
theorem c6_amended_optional_verbatim_witness :
    (fun k =>
        if k = "P_CACHE_DIR" then EnvVal.valid "/c"
        else if k = "P_CONFIG_DIR" then EnvVal.valid "/g"
        else if k = "P_CONFIG_LOCAL_DIR" then EnvVal.valid "/gl"
        else if k = "P_DATA_DIR" then EnvVal.valid "/d"
        else if k = "P_DATA_LOCAL_DIR" then EnvVal.valid "/dl"
        else if k = "P_PREFERENCE_DIR" then EnvVal.valid "/p"
        else if k = "P_PROJECT_PATH" then EnvVal.valid "/pp"
        else if k = "P_RUNTIME_DIR" then EnvVal.valid "/r"
        else EnvVal.notPresent) ("P" ++ "_RUNTIME_DIR") = EnvVal.valid "/r" :=
  (c6_amended_optional_verbatim (fun _ _ _ => none) "myapp" "P"
    (fun k =>
        if k = "P_CACHE_DIR" then EnvVal.valid "/c"
        else if k = "P_CONFIG_DIR" then EnvVal.valid "/g"
        else if k = "P_CONFIG_LOCAL_DIR" then EnvVal.valid "/gl"
        else if k = "P_DATA_DIR" then EnvVal.valid "/d"
        else if k = "P_DATA_LOCAL_DIR" then EnvVal.valid "/dl"
        else if k = "P_PREFERENCE_DIR" then EnvVal.valid "/p"
        else if k = "P_PROJECT_PATH" then EnvVal.valid "/pp"
        else if k = "P_RUNTIME_DIR" then EnvVal.valid "/r"
        else EnvVal.notPresent)
    { cache_dir := "/c", config_dir := "/g", config_local_dir := "/gl",
      data_dir := "/d", data_local_dir := "/dl", preference_dir := "/p",
      project_path := "/pp", runtime_dir := some "/r", state_dir := none }
    (by rfl)).1 "/r" (by rfl)

/-- Counterexample to C7: with a snapshot already published, a second
`initialize` call whose environment has a non-unicode variable is rejected
through the recoverable `Result` (an `EncodingError`), not a panic — though
the published snapshot is still not overwritten. -/
theorem c7_counterexample :
    locationInitialize (fun _ _ _ => none) "myapp" "P"
      (fun k => if k = "P_CACHE_DIR" then .notUnicode [255] else .notPresent)
      (some { cache_dir := "/c", config_dir := "/g", config_local_dir := "/gl",
              data_dir := "/d", data_local_dir := "/dl", preference_dir := "/p",
              project_path := "/pp", runtime_dir := none, state_dir := none })
      = (.failure (.env { name := "P_CACHE_DIR", value := [255] }),
         some { cache_dir := "/c", config_dir := "/g", config_local_dir := "/gl",
                data_dir := "/d", data_local_dir := "/dl", preference_dir := "/p",
                project_path := "/pp", runtime_dir := none, state_dir := none })
    ∧ InitOutcome.isPanicked
        (.failure (.env { name := "P_CACHE_DIR", value := [255] })) = false := by
  exact ⟨by rfl, by rfl⟩

/-- C7 amended: a second `initialize` call never overwrites the published
snapshot; it panics when its own snapshot construction succeeds, and
returns the construction error as a recoverable `Result` when it fails. -/
theorem c7_amended_second_initialize (pf : PlatformFn) (app pfx : String)
    (e : Envt) (snap0 : ProjectDirsOrEnv) :
    (locationInitialize pf app pfx e (some snap0)).2 = some snap0
    ∧ (locationInitialize pf app pfx e (some snap0)).1 =
        match ProjectDirsOrEnv.new pf app pfx e with
        | .ok _ => .panicked "project directories/env provider already initialized"
        | .error err => .failure err := by
  unfold locationInitialize
  cases ProjectDirsOrEnv.new pf app pfx e <;> simp

/-- C8: a failed initialization publishes nothing (the storage cell is left
exactly as it was), and every accessor called while the cell is empty is a
fatal error (panic), not a value. -/
theorem c8_failure_publishes_nothing (pf : PlatformFn) (app pfx : String)
    (e : Envt) (st : Option ProjectDirsOrEnv) (err : InitializeError)
    (h : ProjectDirsOrEnv.new pf app pfx e = .error err) :
    locationInitialize pf app pfx e st = (.failure err, st)
    ∧ locationProvider none
        = .panicked "project directories/env provider not yet initialized"
    ∧ locationCacheDir none
        = .panicked "project directories/env provider not yet initialized"
    ∧ locationConfigDir none
        = .panicked "project directories/env provider not yet initialized"
    ∧ locationConfigLocalDir none
        = .panicked "project directories/env provider not yet initialized"
    ∧ locationDataDir none
        = .panicked "project directories/env provider not yet initialized"
    ∧ locationDataLocalDir none
        = .panicked "project directories/env provider not yet initialized"
    ∧ locationPreferenceDir none
        = .panicked "project directories/env provider not yet initialized"
    ∧ locationProjectPath none
        = .panicked "project directories/env provider not yet initialized"
    ∧ locationRuntimeDir none
        = .panicked "project directories/env provider not yet initialized"
    ∧ locationStateDir none
        = .panicked "project directories/env provider not yet initialized" := by
  refine ⟨?_, rfl, rfl, rfl, rfl, rfl, rfl, rfl, rfl, rfl, rfl⟩
  unfold locationInitialize
  rw [h]

/-- Witness for C8: an `EncodingError` on `P_CACHE_DIR` leaves the empty
cell empty. -/
theorem c8_failure_publishes_nothing_witness :
    locationInitialize (fun _ _ _ => none) "myapp" "P"
      (fun k => if k = "P_CACHE_DIR" then .notUnicode [200] else .notPresent) none
      = (.failure (.env { name := "P_CACHE_DIR", value := [200] }), none) :=
  (c8_failure_publishes_nothing (fun _ _ _ => none) "myapp" "P"
    (fun k => if k = "P_CACHE_DIR" then .notUnicode [200] else .notPresent) none
    (.env { name := "P_CACHE_DIR", value := [200] }) (by rfl)).1

/-- C9: after successful publication every per-kind accessor returns the
same fixed value on every call, and a derived accessor evaluated `n` times
yields the derived value every time while computing it exactly
`min n 1` times (first call computes and caches, later calls reuse the
cache). -/
theorem c9_accessor_stability (snap : ProjectDirsOrEnv)
    (f : ProjectDirsOrEnv → String) (n : Nat) :
    (derivedCalls f (some snap) none n).1
        = List.replicate n (.value (f snap))
    ∧ (derivedCalls f (some snap) none n).2.2 = min n 1
    ∧ (derivedCalls f (some snap) none n).2.1
        = (if n = 0 then none else some (f snap))
    ∧ locationCacheDir (some snap) = .value snap.cache_dir
    ∧ locationConfigDir (some snap) = .value snap.config_dir
    ∧ locationConfigLocalDir (some snap) = .value snap.config_local_dir
    ∧ locationDataDir (some snap) = .value snap.data_dir
    ∧ locationDataLocalDir (some snap) = .value snap.data_local_dir
    ∧ locationPreferenceDir (some snap) = .value snap.preference_dir
    ∧ locationProjectPath (some snap) = .value snap.project_path
    ∧ locationRuntimeDir (some snap) = .value snap.runtime_dir
    ∧ locationStateDir (some snap) = .value snap.state_dir := by
  have cached : ∀ (v : String) (m : Nat),
      derivedCalls f (some snap) (some v) m
        = (List.replicate m (.value v), some v, 0) := by
    intro v m
    induction m with
    | zero => rfl
    | succ m ih => simp [derivedCalls, derivedAccessorCall, ih, List.replicate]
  refine ⟨?_, ?_, ?_, rfl, rfl, rfl, rfl, rfl, rfl, rfl, rfl, rfl⟩
  · cases n with
    | zero => rfl
    | succ m =>
      simp [derivedCalls, derivedAccessorCall, locationProvider, cached, List.replicate]
  · cases n with
    | zero => rfl
    | succ m =>
      simp [derivedCalls, derivedAccessorCall, locationProvider, cached]
  · cases n with
    | zero => rfl
    | succ m =>
      simp [derivedCalls, derivedAccessorCall, locationProvider, cached]

/-- C10: whenever the platform resolver is reached (the hybrid path), the
whole outcome of `initialize` is a function of the platform constructor
applied to exactly the qualifier `""`, the organization `"ALinuxPerson"`,
and the invoking crate's compile-time package name — the resolver is
consulted with no other arguments. -/
theorem c10_platform_arguments (pf : PlatformFn) (cargoPkgName pfx : String)
    (e : Envt) (env : Env) (st : Option ProjectDirsOrEnv)
    (hEnv : Env.new pfx e = .ok env)
    (hInc : mandatoryAllSome env = false) :
    locationInitialize pf cargoPkgName pfx e st =
      match pf "" "ALinuxPerson" cargoPkgName with
      | none => (.failure (.projectDirs {}), st)
      | some pd =>
        match st with
        | none => (.success, some
            { cache_dir := env.cache_dir.getD pd.cache_dir,
              config_dir := env.config_dir.getD pd.config_dir,
              config_local_dir := env.config_local_dir.getD pd.config_local_dir,
              data_dir := env.data_dir.getD pd.data_dir,
              data_local_dir := env.data_local_dir.getD pd.data_local_dir,
              preference_dir := env.preference_dir.getD pd.preference_dir,
              project_path := env.project_path.getD pd.project_path,
              runtime_dir := none, state_dir := none })
        | some _ =>
            (.panicked "project directories/env provider already initialized", st) := by
  simp only [locationInitialize, ProjectDirsOrEnv.new, projectDirsNew, hEnv,
    parity_of_incomplete env hInc]
  cases hp : pf "" "ALinuxPerson" cargoPkgName <;> cases st <;> rfl

/-- Witness for C10: a platform constructor that answers only the exact
triple `("", "ALinuxPerson", "mypkg")` is enough for initialization to
succeed on an empty environment. -/
theorem c10_platform_arguments_witness :
    locationInitialize
      (fun q o a =>
        if q = "" && o = "ALinuxPerson" && a = "mypkg"
        then some { cache_dir := "/qc", config_dir := "/qg",
                    config_local_dir := "/qgl", data_dir := "/qd",
                    data_local_dir := "/qdl", preference_dir := "/qp",
                    project_path := "/qpp", runtime_dir := none, state_dir := none }
        else none)
      "mypkg" "ACME" (fun _ => .notPresent) none
      = (.success, some { cache_dir := "/qc", config_dir := "/qg",
                          config_local_dir := "/qgl", data_dir := "/qd",
                          data_local_dir := "/qdl", preference_dir := "/qp",
                          project_path := "/qpp", runtime_dir := none,
                          state_dir := none }) := by
  have h := c10_platform_arguments
      (fun q o a =>
        if q = "" && o = "ALinuxPerson" && a = "mypkg"
        then some { cache_dir := "/qc", config_dir := "/qg",
                    config_local_dir := "/qgl", data_dir := "/qd",
                    data_local_dir := "/qdl", preference_dir := "/qp",
                    project_path := "/qpp", runtime_dir := none, state_dir := none }
        else none)
      "mypkg" "ACME" (fun _ => .notPresent)
      { cache_dir := none, config_dir := none, config_local_dir := none,
        data_dir := none, data_local_dir := none, preference_dir := none,
        project_path := none, runtime_dir := none, state_dir := none }
      none (by rfl) (by rfl)
  rw [h]
  rfl

/-- Witness for C5: `ACME_CACHE_DIR` is valid and `ACME_CONFIG_DIR` holds
non-unicode bytes — resolution fails naming exactly `ACME_CONFIG_DIR` and
carrying its raw value. -/
theorem c5_encoding_fail_fast_witness :
    Env.new "ACME"
      (fun k =>
        if k = "ACME_CACHE_DIR" then .valid "/c"
        else if k = "ACME_CONFIG_DIR" then .notUnicode [159]
        else .notPresent)
      = .error { name := "ACME_CONFIG_DIR", value := [159] } := by
  exact (c5_encoding_fail_fast "ACME"
    (fun k =>
        if k = "ACME_CACHE_DIR" then .valid "/c"
        else if k = "ACME_CONFIG_DIR" then .notUnicode [159]
        else .notPresent)
    1 [159] (by rfl) (by decide)).1
